import Mathlib

/-!
Verification development for the dataflow graph core of the node editor
repository.  The Python sources under src are embedded shallowly: pure
functions become Lean functions, stateful methods become explicit state
passing, and code that can raise becomes Except-valued.  Python float
values appearing in the claims (1.0, 2.0, 5.0, 0.0) are exactly
representable, so numbers are modelled as rationals; none of the settled
properties depends on rounding.  Classes of this repository that are not
under src (Node, NodeState, Connection, DataModelRegistry, the enums
module) are modelled from the spec where a claim depends on them; each
such definition carries a doc comment starting with
"Modelled from the spec:".
-/

/-! ## node_data.py : NodeDataType, NodeData and the subclass guard -/

/-- Embedding of NodeDataType from src/nodeeditor/node_data.py.  The
constructor accepts arbitrary arguments, including Python None, so both
fields are optional strings. -/
structure NodeDataType where
  id : Option String
  name : Option String
deriving DecidableEq, Repr

/-- The class attribute NodeData.data_type, set in node_data.py line 26 to
NodeDataType(None, None). -/
def node_data_base_data_type : NodeDataType := ⟨none, none⟩

/-- Attribute lookup of data_type on a direct subclass of NodeData.  The
argument distinguishes the three Python situations: the subclass omits the
attribute (none, so the base class attribute NodeDataType(None, None) is
inherited), the subclass sets it to Python None (some none), or the
subclass sets it to a NodeDataType (some (some t)). -/
def subclass_data_type_attr (declared : Option (Option NodeDataType)) :
    Option NodeDataType :=
  match declared with
  | some v => v
  | none => some node_data_base_data_type

/-- Embedding of the check in node_data.py lines 28 to 31: the subclass
hook raises ValueError exactly when the resolved class attribute
cls.data_type is Python None. -/
def init_subclass_data_type_guard (declared : Option (Option NodeDataType)) :
    Except String Unit :=
  match subclass_data_type_attr declared with
  | none => .error "ValueError: subclasses must set the data_type attribute"
  | some _ => .ok ()

/-! ## calculator.py : data values and attribute access -/

/-- Embedding of the two concrete NodeData subclasses of
src/nodeeditor/examples/calculator.py: DecimalData and IntegerData. -/
inductive CalcData where
  | decimalData (number : Rat)
  | integerData (number : Int)
deriving DecidableEq, Repr

/-- The declared data_type of each value, as set in calculator.py lines 16
and 38: DecimalData has NodeDataType("decimal", "Decimal") and IntegerData
has NodeDataType("integer", "Integer"). -/
def CalcData.data_type : CalcData → NodeDataType
  | .decimalData _ => ⟨some "decimal", some "Decimal"⟩
  | .integerData _ => ⟨some "integer", some "Integer"⟩

/-- Result of the Python attribute access value.number.  DecimalData
declares number with the property decorator (calculator.py lines 26 to
29), so the access yields the stored rational.  IntegerData declares
number as a plain method (calculator.py lines 48 to 50), so the access
yields a bound method object, not a number. -/
inductive PyNumberAttr where
  | val (q : Rat)
  | boundMethod
deriving DecidableEq, Repr

/-- Attribute access .number on a calculator data value. -/
def numberAttr : CalcData → PyNumberAttr
  | .decimalData q => .val q
  | .integerData _ => .boundMethod

/-- Attribute access .number on an optional value; Python raises
AttributeError when the receiver is None. -/
def pyNumber : Option CalcData → Except String PyNumberAttr
  | none => .error "AttributeError: NoneType has no attribute number"
  | some d => .ok (numberAttr d)

/-- The Python comparison x == 0.0 where x came from a .number access.  A
bound method object compares unequal to a float without raising. -/
def pyEqZero : PyNumberAttr → Bool
  | .val q => q == 0
  | .boundMethod => false

/-- The Python expression a + b on results of .number accesses; adding a
bound method raises TypeError. -/
def pyAdd : PyNumberAttr → PyNumberAttr → Except String Rat
  | .val a, .val b => .ok (a + b)
  | _, _ => .error "TypeError: unsupported operand types for add"

/-- The Python expression a / b on results of .number accesses. -/
def pyDivide : PyNumberAttr → PyNumberAttr → Except String Rat
  | .val a, .val b =>
      if b == 0 then .error "ZeroDivisionError: division by zero"
      else .ok (a / b)
  | _, _ => .error "TypeError: unsupported operand types for div"

/-- The Python call float(x) on the result of a .number access; calling it
on a bound method object raises TypeError. -/
def pyFloat : PyNumberAttr → Except String Rat
  | .val q => .ok q
  | .boundMethod => .error "TypeError: float argument must be a number"

/-- The Python call int(x) on the result of a .number access; int on a
float truncates toward zero. -/
def pyInt : PyNumberAttr → Except String Int
  | .val q => .ok (if q < 0 then -((-q).floor) else q.floor)
  | .boundMethod => .error "TypeError: int argument must be a number"

/-! ## calculator.py : MathOperationDataModel and its subclasses -/

/-- Embedding of the NodeValidationState enum referenced throughout the
sources.  Modelled from the spec: the enums module is not under src; the
spec section 4.1 fixes the three states Valid, Warning and Error. -/
inductive NodeValidationState where
  | valid
  | warning
  | error
deriving DecidableEq, Repr

/-- Mutable state of a MathOperationDataModel instance, calculator.py
lines 58 to 64: the two inputs, the computed result and the validation
fields. -/
structure MathOpState where
  number1 : Option CalcData
  number2 : Option CalcData
  result : Option CalcData
  validation_state : NodeValidationState
  validation_message : String
deriving DecidableEq, Repr

/-- The state set by MathOperationDataModel.__init__. -/
def math_op_init : MathOpState :=
  ⟨none, none, none, .warning, "Uninitialized"⟩

/-- Embedding of the test applied to each input by
MathOperationDataModel._check_inputs, calculator.py lines 84 to 87: the
input is present and its data_type.id is a member of the literal tuple
containing the strings Decimal and integer. -/
def inputOk : Option CalcData → Bool
  | none => false
  | some d => [some "Decimal", some "integer"].contains d.data_type.id

/-- Embedding of MathOperationDataModel._check_inputs, calculator.py lines
83 to 98.  Returns the updated state together with the boolean the Python
method returns. -/
def check_inputs (s : MathOpState) : MathOpState × Bool :=
  let number1_ok := inputOk s.number1
  let number2_ok := inputOk s.number2
  if !number1_ok || !number2_ok then
    ({ s with validation_state := .warning,
              validation_message := "Missing or incorrect inputs",
              result := none }, false)
  else
    ({ s with validation_state := .valid, validation_message := "" }, true)

/-- Embedding of MathOperationDataModel.set_in_data, calculator.py lines
128 to 144, parameterized by the compute method of the concrete subclass.
The _compute_lock context manager first raises RuntimeError when either
input is falsy (only None is falsy here, data objects define no bool
conversion), then compute runs. -/
def set_in_data (compute : MathOpState → Except String MathOpState)
    (s : MathOpState) (data : Option CalcData) (port_index : Nat) :
    Except String MathOpState :=
  let s0 := if port_index == 0 then { s with number1 := data }
            else if port_index == 1 then { s with number2 := data }
            else s
  match check_inputs s0 with
  | (s1, false) => .ok s1
  | (s1, true) =>
      if s1.number1.isNone || s1.number2.isNone then
        .error "RuntimeError: inputs unset"
      else compute s1

/-- Embedding of AdditionModel.compute, calculator.py lines 159 to 160:
result becomes DecimalData of the sum of the two .number accesses. -/
def addition_compute (s : MathOpState) : Except String MathOpState := do
  let a ← pyNumber s.number1
  let b ← pyNumber s.number2
  let r ← pyAdd a b
  .ok { s with result := some (.decimalData r) }

/-- Embedding of DivisionModel.compute, calculator.py lines 176 to 184:
when the second .number compares equal to 0.0 the state moves to Error
with the division by zero message and the result is cleared; otherwise the
state is Valid and the result is the quotient as DecimalData. -/
def division_compute (s : MathOpState) : Except String MathOpState := do
  let b ← pyNumber s.number2
  if pyEqZero b then
    .ok { s with validation_state := .error,
                 validation_message := "Division by zero error",
                 result := none }
  else do
    let a ← pyNumber s.number1
    let q ← pyDivide a b
    .ok { s with validation_state := .valid,
                 validation_message := "",
                 result := some (.decimalData q) }

/-- Output of a NumberSourceDataModel whose line edit holds the given
number: out_data returns the stored DecimalData (calculator.py lines 276
to 288 and 302 to 308). -/
def number_source_out (q : Rat) : Option CalcData :=
  some (.decimalData q)

/-- Modelled from the spec: Connection initial propagation (spec section
4.2) and Node.on_data_updated are not under src; creating a connection
pushes the current output of the source node synchronously into
set_in_data of the destination model at the destination port index.  The
scenario below therefore delivers each source output with one set_in_data
call. -/
def deliver (compute : MathOpState → Except String MathOpState)
    (s : MathOpState) (out_value : Option CalcData) (port : Nat) :
    Except String MathOpState :=
  set_in_data compute s out_value port

/-- The Addition node state after the two claimed connections exist:
DecimalData 1 delivered at input 0, then DecimalData 2 at input 1. -/
def addition_after_wiring : Except String MathOpState := do
  let s1 ← deliver addition_compute math_op_init (number_source_out 1) 0
  deliver addition_compute s1 (number_source_out 2) 1

/-- The Division node state after DecimalData 5 is delivered at input 0
and DecimalData 0 at input 1. -/
def division_after_wiring : Except String MathOpState := do
  let s1 ← deliver division_compute math_op_init (number_source_out 5) 0
  deliver division_compute s1 (number_source_out 0) 1

/-! ## calculator.py : type converters and their registration -/

/-- Embedding of integer_to_decimal_converter, calculator.py lines 382 to
394: DecimalData(float(data.number)). -/
def integer_to_decimal_converter (d : CalcData) : Except String CalcData := do
  let q ← pyFloat (numberAttr d)
  .ok (.decimalData q)

/-- Embedding of decimal_to_integer_converter, calculator.py lines 397 to
409: IntegerData(int(data.number)). -/
def decimal_to_integer_converter (d : CalcData) : Except String CalcData := do
  let n ← pyInt (numberAttr d)
  .ok (.integerData n)

/-- Modelled from the spec: DataModelRegistry.register_type_converter is
not under src; the spec section 3 describes the registry as a mapping from
the pair of source and destination type ids to a conversion function.
This list records exactly the two registrations performed by main,
calculator.py lines 421 to 424: the decimal to integer slot and the
integer to decimal slot, the latter registered with
decimal_to_integer_converter. -/
def calc_type_converters :
    List ((Option String × Option String) × (CalcData → Except String CalcData)) :=
  [ ((some "decimal", some "integer"), decimal_to_integer_converter),
    ((some "integer", some "decimal"), decimal_to_integer_converter) ]

/-- Modelled from the spec: registry lookup by source and destination type
id. -/
def get_type_converter (src dst : Option String) :
    Option (CalcData → Except String CalcData) :=
  (calc_type_converters.find? (fun p => p.1.1 == src && p.1.2 == dst)).map (·.2)

/-! ## flow_scene.py : graph state -/

/-- Node identifiers; Python uses QUuid strings. -/
abbrev NodeId := String

/-- A type converter reference as held by a live connection.  Modelled
from the spec: the Connection class is not under src; a connection either
carries no converter, the DefaultTypeConverter sentinel, or a converter
identified by its input and output NodeDataType. -/
inductive ConverterRef where
  | default_converter
  | converter (in_type out_type : NodeDataType)
deriving DecidableEq, Repr

/-- A complete connection as stored in FlowScene._connections.  Modelled
from the spec: the Connection class is not under src; spec section 3
describes a connection as the directed edge out node, out port index, in
node, in port index with an optional converter.  The cid field models
Python object identity (each created connection is a distinct object). -/
structure ConnRec where
  cid : Nat
  out_id : NodeId
  out_index : Nat
  in_id : NodeId
  in_index : Nat
  converter : Option ConverterRef
deriving DecidableEq, Repr

/-- Per node record.  Modelled from the spec: the Node and NodeState
classes are not under src; spec section 3 gives each node a model name, a
position, model specific saved fields, and a port state holder mapping an
input index to at most one connection (0 or 1 for inputs) and an output
index to a list of connections (0..N for outputs).  Slots store the cid of
the attached connection. -/
structure NodeRec where
  model_name : String
  position : Rat × Rat
  extra : List (String × Rat)
  inSlots : List (Option Nat)
  outConns : List (List Nat)
deriving DecidableEq, Repr

/-- The collections owned by a FlowScene, flow_scene.py lines 48 to 49:
the insertion ordered node dictionary and the connection list.  nextCid is
the supply of fresh connection identities. -/
structure SceneState where
  nodes : List (NodeId × NodeRec)
  connections : List ConnRec
  nextCid : Nat
deriving DecidableEq, Repr

/-- Replace the record of the node with the given id, leaving the key
sequence of the dictionary unchanged. -/
def update_node (s : SceneState) (nid : NodeId) (f : NodeRec → NodeRec) :
    SceneState :=
  { s with nodes := s.nodes.map (fun p => if p.1 == nid then (p.1, f p.2) else p) }

/-- Modelled from the spec: NodeState.set_connection for an input port is
not under src; an input port holds at most one connection, so setting it
overwrites the slot. -/
def set_connection_in (s : SceneState) (nid : NodeId) (idx cid : Nat) :
    SceneState :=
  update_node s nid (fun n => { n with inSlots := n.inSlots.set idx (some cid) })

/-- Modelled from the spec: NodeState.set_connection for an output port is
not under src; an output port holds a list of connections, so setting it
appends. -/
def set_connection_out (s : SceneState) (nid : NodeId) (idx cid : Nat) :
    SceneState :=
  update_node s nid
    (fun n => { n with outConns := n.outConns.modify (fun l => l ++ [cid]) idx })

/-- Embedding of FlowScene.create_connection, flow_scene.py lines 99 to
132: a connection object is built from the four endpoints and the
converter, registered on the input slot and the output slot, data
propagation is triggered (not part of the topology state), and the
connection is appended to the connection list.  No existing connection is
inspected, displaced or removed. -/
def create_connection (s : SceneState) (in_id : NodeId) (in_index : Nat)
    (out_id : NodeId) (out_index : Nat) (conv : Option ConverterRef) :
    SceneState :=
  let cid := s.nextCid
  let s1 := set_connection_in s in_id in_index cid
  let s2 := set_connection_out s1 out_id out_index cid
  { s2 with
    connections := s2.connections ++ [⟨cid, out_id, out_index, in_id, in_index, conv⟩],
    nextCid := cid + 1 }

/-- Modelled from the spec: Connection.remove_from_nodes is not under src;
spec sections 4.3 and 4.4 say removal detaches the connection from both
ports.  Every slot holding the identity is cleared. -/
def remove_conn_from_nodes (s : SceneState) (cid : Nat) : SceneState :=
  { s with nodes := s.nodes.map (fun p =>
      (p.1, { p.2 with
        inSlots := p.2.inSlots.map (fun sl => if sl == some cid then none else sl),
        outConns := p.2.outConns.map (fun l => l.filter (fun c => !(c == cid))) })) }

/-- Embedding of FlowScene.delete_connection, flow_scene.py lines 180 to
193: when the connection is present in the list it is removed and
remove_from_nodes runs; otherwise nothing happens.  The second component
is the retraction target: modelled from the spec, section 4.3, removing a
connection delivers None to the destination input, namely set_in_data of
the in node at the in index. -/
def delete_connection (s : SceneState) (cid : Nat) :
    SceneState × Option (NodeId × Nat) :=
  match s.connections.find? (fun c => c.cid == cid) with
  | none => (s, none)
  | some c =>
      let s1 := { s with connections := s.connections.filter (fun k => !(k.cid == cid)) }
      (remove_conn_from_nodes s1 cid, some (c.in_id, c.in_index))

/-- Embedding of FlowScene.remove_node, flow_scene.py lines 239 to 253:
every connection touching the node is deleted, then the node is removed
from the dictionary. -/
def remove_node (s : SceneState) (nid : NodeId) : SceneState :=
  let cids := (s.connections.filter
    (fun c => c.in_id == nid || c.out_id == nid)).map (·.cid)
  let s1 := cids.foldl (fun acc cid => (delete_connection acc cid).1) s
  { s1 with nodes := s1.nodes.filter (fun p => !(p.1 == nid)) }

/-- Embedding of FlowScene.clear_scene, flow_scene.py lines 490 to 499:
delete every connection in a snapshot of the connection list, then remove
every node in a snapshot of the node dictionary. -/
def clear_scene (s : SceneState) : SceneState :=
  let s1 := (s.connections.map (·.cid)).foldl
    (fun acc cid => (delete_connection acc cid).1) s
  (s1.nodes.map (·.1)).foldl remove_node s1

/-! ## flow_scene.py : serialization -/

/-- One entry of the nodes array of the persisted document.  Modelled from
the spec: Node.save is not under src; spec section 6 gives id, model name,
position and the model specific fields merged in. -/
structure NodeDoc where
  nid : NodeId
  model_name : String
  position : Rat × Rat
  extra : List (String × Rat)
deriving DecidableEq, Repr

/-- One entry of the connections array of the persisted document, spec
section 6: in id, in index, out id, out index and the optional converter
recorded as its pair of NodeDataType entries. -/
structure ConnDoc where
  in_id : NodeId
  in_index : Nat
  out_id : NodeId
  out_index : Nat
  converter : Option (NodeDataType × NodeDataType)
deriving DecidableEq, Repr

/-- The persisted scene document, flow_scene.py lines 528 to 549: the
nodes array followed by the connections array. -/
structure SceneDoc where
  nodes : List NodeDoc
  connections : List ConnDoc
deriving DecidableEq, Repr

/-- Modelled from the spec: Connection.save is not under src; a complete
connection serializes its endpoints and, when it carries a named
converter, the converter type pair.  All connections held by the scene
model are complete, so the document is never empty and the isEmpty filter
of save_to_memory keeps every entry. -/
def conn_save (c : ConnRec) : ConnDoc :=
  ⟨c.in_id, c.in_index, c.out_id, c.out_index,
    match c.converter with
    | some (.converter a b) => some (a, b)
    | _ => none⟩

/-- Embedding of FlowScene.save_to_memory, flow_scene.py lines 528 to
549. -/
def save_to_memory (s : SceneState) : SceneDoc :=
  { nodes := s.nodes.map (fun p => ⟨p.1, p.2.model_name, p.2.position, p.2.extra⟩),
    connections := s.connections.map conn_save }

/-- Registry entry for a node model: its name and its port counts.
Modelled from the spec: DataModelRegistry is not under src; it maps a
model name to a factory, and the factory determines the port counts of
the created model. -/
structure ModelEntry where
  name : String
  n_in : Nat
  n_out : Nat
deriving DecidableEq, Repr

/-- Modelled from the spec: the model registry as the list of registered
entries. -/
structure Registry where
  models : List ModelEntry
deriving DecidableEq, Repr

/-- The registry built by main of calculator.py lines 413 to 419 (the
models relevant to the claims). -/
def calc_registry : Registry :=
  ⟨[⟨"NumberSource", 0, 1⟩, ⟨"NumberDisplay", 1, 0⟩, ⟨"Addition", 2, 1⟩,
    ⟨"Division", 2, 1⟩]⟩

/-- Embedding of FlowScene.restore_node, flow_scene.py lines 215 to 237:
the registry creates a model for the stored name, raising ValueError for
an unregistered name; the node is rebuilt with empty port state, restores
its id, position and model fields from the document, and is inserted into
the dictionary under its id. -/
def restore_node (reg : Registry) (s : SceneState) (nd : NodeDoc) :
    Except String SceneState :=
  match reg.models.find? (fun m => m.name == nd.model_name) with
  | none => .error ("ValueError: no registered model with name " ++ nd.model_name)
  | some m =>
      let node : NodeRec :=
        { model_name := nd.model_name, position := nd.position, extra := nd.extra,
          inSlots := List.replicate m.n_in none,
          outConns := List.replicate m.n_out [] }
      .ok { s with nodes :=
        if s.nodes.any (fun p => p.1 == nd.nid) then
          s.nodes.map (fun p => if p.1 == nd.nid then (p.1, node) else p)
        else s.nodes ++ [(nd.nid, node)] }

/-- Embedding of the nested get_converter of FlowScene.restore_connection,
flow_scene.py lines 154 to 169: when the document carries a converter
entry the function returns DefaultTypeConverter at once; when it carries
none, the code falls through and subscripts the None value, raising
TypeError.  The registry lookup below that line is unreachable. -/
def get_converter (doc_conv : Option (NodeDataType × NodeDataType)) :
    Except String ConverterRef :=
  match doc_conv with
  | some _ => .ok .default_converter
  | none => .error "TypeError: NoneType object is not subscriptable"

/-- Dictionary lookup self._nodes with a KeyError on a missing id. -/
def lookup_node (s : SceneState) (nid : NodeId) : Except String NodeRec :=
  match s.nodes.find? (fun p => p.1 == nid) with
  | none => .error ("KeyError: " ++ nid)
  | some p => .ok p.2

/-- Embedding of FlowScene.restore_connection, flow_scene.py lines 134 to
178: both endpoint nodes are looked up (KeyError if absent), the converter
is computed by get_converter, and create_connection runs. -/
def restore_connection (s : SceneState) (cd : ConnDoc) :
    Except String SceneState := do
  let _ ← lookup_node s cd.in_id
  let _ ← lookup_node s cd.out_id
  let conv ← get_converter cd.converter
  .ok (create_connection s cd.in_id cd.in_index cd.out_id cd.out_index (some conv))

/-- Restore every node in order, stopping at the first failure; the state
reached so far is kept, as the Python exception leaves the scene with the
mutations already applied. -/
def load_nodes (reg : Registry) :
    SceneState → List NodeDoc → SceneState × Option String
  | s, [] => (s, none)
  | s, nd :: rest =>
      match restore_node reg s nd with
      | .error e => (s, some e)
      | .ok s1 => load_nodes reg s1 rest

/-- Restore every connection in order, stopping at the first failure. -/
def load_connections :
    SceneState → List ConnDoc → SceneState × Option String
  | s, [] => (s, none)
  | s, cd :: rest =>
      match restore_connection s cd with
      | .error e => (s, some e)
      | .ok s1 => load_connections s1 rest

/-- Embedding of FlowScene.load_from_memory, flow_scene.py lines 551 to
567: all nodes first, then all connections.  The pair carries the scene
state reached together with the error, if any, that escaped. -/
def load_from_memory (reg : Registry) (s : SceneState) (doc : SceneDoc) :
    SceneState × Option String :=
  match load_nodes reg s doc.nodes with
  | (s1, some e) => (s1, some e)
  | (s1, none) => load_connections s1 doc.connections

/-- Embedding of FlowScene.load, flow_scene.py lines 514 to 526: the scene
is cleared first, then the document is read and load_from_memory runs.
File dialog and file system access are outside the embedded core; the
document is taken as given. -/
def flow_load (reg : Registry) (s : SceneState) (doc : SceneDoc) :
    SceneState × Option String :=
  load_from_memory reg (clear_scene s) doc

/-! ## flow_scene.py : dependency ordered traversal -/

/-- Modelled from the spec within the embedding of is_node_leaf,
flow_scene.py lines 381 to 387: NodeState.connections for an input port is
not under src; per spec section 3 an input port holds 0 or 1 connections,
and the query yields None for an empty slot, matching the is None test of
the source.  A node counts as a leaf when no input slot query returns
None, that is when every input port is occupied (vacuously when it has no
input ports). -/
def is_node_leaf (n : NodeRec) : Bool :=
  n.inSlots.all (fun sl => !sl.isNone)

/-- Embedding of are_node_inputs_visited_before, flow_scene.py lines 396
to 403: the input slots are scanned in order; an occupied slot whose
feeding node equals the most recently visited node makes the check return
False at once; an empty slot is iterated as None, raising TypeError; if
the scan finishes, the check returns True. -/
def are_node_inputs_visited_before (s : SceneState) (vis : List NodeId) :
    List (Option Nat) → Except String Bool
  | [] => .ok true
  | none :: _ => .error "TypeError: NoneType object is not iterable"
  | some cid :: rest =>
      match s.connections.find? (fun c => c.cid == cid) with
      | none => are_node_inputs_visited_before s vis rest
      | some c =>
          if vis.getLast? == some c.out_id then .ok false
          else are_node_inputs_visited_before s vis rest

/-- One pass of the while loop of
iterate_over_node_data_dependent_order, flow_scene.py lines 406 to 414:
every node of the dictionary is examined; a node already visited is
skipped unless it is the most recently visited one; an examined node
passing the check is visited again and appended. -/
def traversal_pass (s : SceneState) :
    List (NodeId × NodeRec) → List NodeId → Except String (List NodeId)
  | [], vis => .ok vis
  | (nid, n) :: rest, vis =>
      if vis.contains nid && !(vis.getLast? == some nid) then
        traversal_pass s rest vis
      else
        match are_node_inputs_visited_before s vis n.inSlots with
        | .error e => .error e
        | .ok true => traversal_pass s rest (vis ++ [nid])
        | .ok false => traversal_pass s rest vis

/-- The while loop of flow_scene.py lines 406 to 414, run with explicit
fuel: the loop repeats whole passes until the visited list has the same
length as the node dictionary.  A none result means the fuel ran out with
the loop still running, so the Python loop has not terminated within that
many passes. -/
def traversal_while (s : SceneState) :
    Nat → List NodeId → Option (Except String (List NodeId))
  | 0, _ => none
  | fuel + 1, vis =>
      if s.nodes.length == vis.length then some (.ok vis)
      else
        match traversal_pass s s.nodes vis with
        | .error e => some (.error e)
        | .ok vis1 => traversal_while s fuel vis1

/-- The leaf loop of flow_scene.py lines 390 to 394: every node whose
is_node_leaf check passes is visited, in dictionary order. -/
def traversal_leaves (s : SceneState) : List NodeId :=
  (s.nodes.filter (fun p => is_node_leaf p.2)).map (·.1)

/-- Embedding of FlowScene.iterate_over_node_data_dependent_order,
flow_scene.py lines 297 to 414: the leaf loop followed by the fuelled
while loop.  The returned list is the sequence of visitor calls. -/
def iterate_over_node_data_dependent_order (s : SceneState) (fuel : Nat) :
    Option (Except String (List NodeId)) :=
  traversal_while s fuel (traversal_leaves s)

/-! ## Concrete scenes used to settle the claims -/

/-- A NumberSource node record with one output port feeding the listed
connections. -/
def source_node (outs : List Nat) : NodeRec :=
  { model_name := "NumberSource", position := (0, 0), extra := [("number", 1)],
    inSlots := [], outConns := [outs] }

/-- A NumberDisplay node record whose single input slot holds the given
connection, if any. -/
def display_node (slot : Option Nat) : NodeRec :=
  { model_name := "NumberDisplay", position := (1, 0), extra := [],
    inSlots := [slot], outConns := [] }

/-- A scene of one source a feeding one display b through connection 7,
used for the round trip and the load claims. -/
def rt_scene : SceneState :=
  { nodes := [("a", source_node [7]), ("b", display_node (some 7))],
    connections := [⟨7, "a", 0, "b", 0, none⟩],
    nextCid := 8 }

/-- A document whose single node names a model that is not registered. -/
def bad_doc : SceneDoc :=
  { nodes := [⟨"z", "Bogus", (0, 0), []⟩], connections := [] }

/-- A scene of two sources and one display with no connections yet, used
for the input occupancy claim. -/
def occupancy_base : SceneState :=
  { nodes := [("s1", source_node []), ("s2", source_node []),
              ("t", display_node none)],
    connections := [], nextCid := 0 }

/-- The occupancy scene after the first connection, s1 into input 0 of
t. -/
def occupancy_one : SceneState :=
  create_connection occupancy_base "t" 0 "s1" 0 none

/-- The occupancy scene after a second connection into the same input,
s2 into input 0 of t. -/
def occupancy_two : SceneState :=
  create_connection occupancy_one "t" 0 "s2" 0 none

/-- A fully wired chain stored in the node dictionary with the display
before the source: source feeds display input 0 through connection 0. -/
def chain_scene : SceneState :=
  { nodes := [("display", display_node (some 0)), ("source", source_node [0])],
    connections := [⟨0, "source", 0, "display", 0, none⟩],
    nextCid := 1 }

/-- A scene where the division node x has input 0 fed by the source s via
connection 1 and input 1 empty. -/
def dup_scene : SceneState :=
  { nodes := [("s", source_node [1]),
              ("x", { model_name := "Division", position := (2, 0), extra := [],
                      inSlots := [some 1, none], outConns := [[]] })],
    connections := [⟨1, "s", 0, "x", 0, none⟩],
    nextCid := 2 }

/-- A scene with a self loop: node l feeds its own single input through
connection 0 and also feeds input 0 of x through connection 1, while
input 1 of x is empty. -/
def cyclic_scene : SceneState :=
  { nodes := [("l", { model_name := "Division", position := (0, 0), extra := [],
                      inSlots := [some 0], outConns := [[0, 1]] }),
              ("x", { model_name := "Division", position := (2, 0), extra := [],
                      inSlots := [some 1, none], outConns := [[]] })],
    connections := [⟨0, "l", 0, "l", 0, none⟩, ⟨1, "l", 0, "x", 0, none⟩],
    nextCid := 2 }

/-- A scene where source s2 feeds input 1 of the division node div
through connection 7, used for the retraction claim. -/
def retraction_scene : SceneState :=
  { nodes := [("s2", source_node [7]),
              ("div", { model_name := "Division", position := (2, 0), extra := [],
                        inSlots := [none, some 7], outConns := [[]] })],
    connections := [⟨7, "s2", 0, "div", 1, none⟩],
    nextCid := 8 }

/-! ## Helper lemmas about clearing a scene -/

/-- Deleting a connection identity leaves exactly the connections whose
identity differs. -/
theorem delete_connection_connections (s : SceneState) (cid : Nat) :
    ((delete_connection s cid).1).connections =
      s.connections.filter (fun k => !(k.cid == cid)) := by
  unfold delete_connection
  cases h : s.connections.find? (fun c => c.cid == cid) with
  | none =>
      have hall := List.find?_eq_none.mp h
      simp only
      rw [List.filter_eq_self.mpr]
      intro a ha
      simpa using hall a ha
  | some c => rfl

/-- Folding delete_connection over a list covering every present identity
empties the connection list. -/
theorem delete_fold_connections :
    ∀ (cids : List Nat) (s : SceneState),
      (∀ c ∈ s.connections, c.cid ∈ cids) →
      ((cids.foldl (fun acc cid => (delete_connection acc cid).1) s).connections = []) :=
  fun cids => by
    induction cids with
    | nil =>
        intro s h
        simp only [List.foldl_nil]
        exact List.eq_nil_iff_forall_not_mem.mpr
          (fun c hc => by simpa using h c hc)
    | cons cid0 tl ih =>
        intro s h
        simp only [List.foldl_cons]
        apply ih
        intro c hc
        rw [delete_connection_connections] at hc
        rcases List.mem_filter.mp hc with ⟨hmem, hprop⟩
        rcases List.mem_cons.mp (h c hmem) with h1 | h2
        · exact absurd (by simp [h1] : (!(c.cid == cid0)) = false)
            (by simp [hprop])
        · exact h2

/-- Removing a node from a scene with no connections just filters the node
dictionary. -/
theorem remove_node_of_no_connections (s : SceneState) (nid : NodeId)
    (h : s.connections = []) :
    remove_node s nid =
      { s with nodes := s.nodes.filter (fun p => !(p.1 == nid)) } := by
  simp [remove_node, h]

/-- Folding remove_node over a list covering every present key empties the
node dictionary and keeps the connection list empty. -/
theorem remove_fold_nodes :
    ∀ (ids : List NodeId) (s : SceneState),
      s.connections = [] →
      (∀ p ∈ s.nodes, p.1 ∈ ids) →
      (ids.foldl remove_node s).nodes = [] ∧
        (ids.foldl remove_node s).connections = [] :=
  fun ids => by
    induction ids with
    | nil =>
        intro s hc h
        refine ⟨?_, by simpa using hc⟩
        simp only [List.foldl_nil]
        exact List.eq_nil_iff_forall_not_mem.mpr
          (fun p hp => by simpa using h p hp)
    | cons id0 tl ih =>
        intro s hc h
        simp only [List.foldl_cons]
        rw [remove_node_of_no_connections s id0 hc]
        apply ih
        · exact hc
        · intro p hp
          rcases List.mem_filter.mp hp with ⟨hmem, hprop⟩
          rcases List.mem_cons.mp (h p hmem) with h1 | h2
          · exact absurd (by simp [h1] : (!(p.1 == id0)) = false)
              (by simp [hprop])
          · exact h2

/-- Clearing a scene empties both collections. -/
theorem clear_scene_spec (s : SceneState) :
    (clear_scene s).nodes = [] ∧ (clear_scene s).connections = [] := by
  unfold clear_scene
  have h1 : (((s.connections.map (·.cid)).foldl
      (fun acc cid => (delete_connection acc cid).1) s)).connections = [] :=
    delete_fold_connections _ s (fun c hc => List.mem_map_of_mem _ hc)
  exact remove_fold_nodes _ _ h1 (fun p hp => List.mem_map_of_mem _ hp)

/-! ## Helper lemmas about the traversal on the cyclic scene -/

/-- One pass of the while loop over the cyclic scene makes no progress:
the self fed node l is re-examined but its feeder is the last visited
node, and x is rejected for the same reason before its empty slot is
reached. -/
theorem cyclic_pass_fixed :
    traversal_pass cyclic_scene cyclic_scene.nodes ["l"] = .ok ["l"] := rfl

/-- The while loop over the cyclic scene runs out of any amount of fuel:
the visited list stays at one entry while two nodes exist. -/
theorem cyclic_while_none :
    ∀ fuel, traversal_while cyclic_scene fuel ["l"] = none
  | 0 => rfl
  | fuel + 1 => by
      have hstep : traversal_while cyclic_scene (fuel + 1) ["l"] =
          traversal_while cyclic_scene fuel ["l"] := rfl
      rw [hstep]
      exact cyclic_while_none fuel

/-! ## Claim theorems -/

/-- Claim C1.  The claim states that wiring Source(1.0) into Addition
input 0 and Source(2.0) into Addition input 1 yields output
DecimalData(3.0) with validation state Valid.  The code disagrees:
_check_inputs (calculator.py line 85) tests the type id, which is the
string decimal, for membership in the tuple containing Decimal and
integer, so DecimalData inputs never pass the check, compute never runs,
and the node ends in Warning with an empty result.  This theorem
evaluates the embedded code at the claimed input. -/
theorem claim_C1_propagation :
    addition_after_wiring =
      .ok { number1 := some (.decimalData 1), number2 := some (.decimalData 2),
            result := none, validation_state := .warning,
            validation_message := "Missing or incorrect inputs" } := rfl

/-- Claim C2.  The claim states that loading the saved document of any
graph reproduces its node and connection topology.  The code disagrees:
get_converter inside restore_connection (flow_scene.py lines 154 to 169)
returns DefaultTypeConverter when the document carries a converter and
subscripts None when it does not, so loading the saved form of a graph
with one ordinary connection raises TypeError and restores no connection.
This theorem evaluates the embedded round trip at such a graph. -/
theorem claim_C2_round_trip :
    (flow_load calc_registry rt_scene (save_to_memory rt_scene)).2 =
      some "TypeError: NoneType object is not subscriptable"
    ∧ (flow_load calc_registry rt_scene (save_to_memory rt_scene)).1.connections
        = [] :=
  ⟨rfl, rfl⟩

/-- Claim C3, counterexample.  The claim states that a failed load leaves
the graph in its prior, unmodified state.  Loading a document that names
an unregistered model into a scene holding one source, one display and
one connection raises ValueError but leaves the scene empty: the prior
nodes and connection are gone. -/
theorem claim_C3_counterexample :
    (flow_load calc_registry rt_scene bad_doc).2 =
      some "ValueError: no registered model with name Bogus"
    ∧ (flow_load calc_registry rt_scene bad_doc).1.nodes = []
    ∧ (flow_load calc_registry rt_scene bad_doc).1.connections = []
    ∧ rt_scene.nodes ≠ [] ∧ rt_scene.connections ≠ [] := by
  refine ⟨rfl, rfl, rfl, ?_, ?_⟩ <;> decide

/-- Claim C3, amended.  Load clears the scene before reading the
document, so a failed load leaves the cleared, partially reloaded graph
rather than the prior one: clearing empties both collections and load is
exactly load_from_memory run on the cleared scene. -/
theorem claim_C3_amended (reg : Registry) (s : SceneState) (doc : SceneDoc) :
    flow_load reg s doc = load_from_memory reg (clear_scene s) doc
    ∧ (clear_scene s).nodes = [] ∧ (clear_scene s).connections = [] :=
  ⟨rfl, (clear_scene_spec s).1, (clear_scene_spec s).2⟩

/-- Claim C4.  The claim states that the dependency ordered traversal
visits every node exactly once and visits a node only after all nodes
feeding its inputs, regardless of dictionary order.  The code disagrees:
its leaf test treats every node whose input slots are all occupied as a
leaf, so the fully wired chain stored with the display first is visited
in dictionary order, display before its feeding source; and on the scene
where the division node has an empty second input, the source is visited
twice and the division node never. -/
theorem claim_C4_dependency_order :
    iterate_over_node_data_dependent_order chain_scene 1 =
      some (.ok ["display", "source"])
    ∧ chain_scene.connections = [⟨0, "source", 0, "display", 0, none⟩]
    ∧ iterate_over_node_data_dependent_order dup_scene 2 =
        some (.ok ["s", "s"]) :=
  ⟨rfl, rfl, rfl⟩

/-- Claim C5.  The claim states that the traversal terminates on every
graph, cyclic ones included, within at most as many passes as there are
nodes, flagging unvisited nodes.  The code disagrees: on the scene with a
self fed node l and a node x fed by l with an empty second input, every
pass of the while loop leaves the visited list unchanged, so the loop
never terminates no matter how much fuel it is given. -/
theorem claim_C5_termination :
    ∀ fuel, iterate_over_node_data_dependent_order cyclic_scene fuel = none := by
  intro fuel
  have hleaves : traversal_leaves cyclic_scene = ["l"] := rfl
  show traversal_while cyclic_scene fuel (traversal_leaves cyclic_scene) = none
  rw [hleaves]
  exact cyclic_while_none fuel

/-- Claim C6, counterexample.  The claim states that creating a second
connection to an occupied input first removes the old connection.  After
connecting s1 to input 0 of t and then s2 to the same input, the first
connection is still in the scene collection: two complete connections
into the same input coexist and nothing was removed. -/
theorem claim_C6_counterexample :
    occupancy_one.connections = [⟨0, "s1", 0, "t", 0, none⟩]
    ∧ occupancy_two = create_connection occupancy_one "t" 0 "s2" 0 none
    ∧ occupancy_two.connections =
        [⟨0, "s1", 0, "t", 0, none⟩, ⟨1, "s2", 0, "t", 0, none⟩] :=
  ⟨rfl, rfl, rfl⟩

/-- Claim C6, amended.  create_connection never displaces an existing
connection: every connection present before the call is still present
after it, and the collection grows by exactly one entry (the input slot
is overwritten to reference the new connection, but the old connection
object stays registered in the scene). -/
theorem claim_C6_no_displacement (s : SceneState) (in_id : NodeId)
    (in_index : Nat) (out_id : NodeId) (out_index : Nat)
    (conv : Option ConverterRef) (c : ConnRec) (h : c ∈ s.connections) :
    c ∈ (create_connection s in_id in_index out_id out_index conv).connections
    ∧ (create_connection s in_id in_index out_id out_index conv).connections.length
        = s.connections.length + 1 := by
  have hconn : (create_connection s in_id in_index out_id out_index conv).connections
      = s.connections ++ [⟨s.nextCid, out_id, out_index, in_id, in_index, conv⟩] := rfl
  constructor
  · rw [hconn]
    exact List.mem_append_left _ h
  · rw [hconn]
    simp

/-- Claim C6, witness.  The general no displacement theorem applied to the
concrete occupied input scene. -/
theorem claim_C6_no_displacement_witness :
    (⟨0, "s1", 0, "t", 0, none⟩ : ConnRec) ∈ occupancy_two.connections
    ∧ occupancy_two.connections.length = occupancy_one.connections.length + 1 :=
  claim_C6_no_displacement occupancy_one "t" 0 "s2" 0 none
    ⟨0, "s1", 0, "t", 0, none⟩ (by decide)

/-- Claim C7.  The claim states that the registered int to decimal
converter delivers a Decimal equal to the integer cast to float.  The
code disagrees twice: main registers decimal_to_integer_converter for the
integer to decimal slot (calculator.py lines 423 to 424), and either
converter raises TypeError on an IntegerData value because IntegerData
declares number as a plain method, so the attribute access yields a bound
method rather than the stored integer. -/
theorem claim_C7_converter :
    get_type_converter (some "integer") (some "decimal") =
      some decimal_to_integer_converter
    ∧ decimal_to_integer_converter (.integerData 7) =
        .error "TypeError: int argument must be a number"
    ∧ integer_to_decimal_converter (.integerData 7) =
        .error "TypeError: float argument must be a number" :=
  ⟨rfl, rfl, rfl⟩

/-- Claim C8.  The claim states that Division with inputs 5.0 and 0.0
reports validation Error with empty output and never raises.  The code
indeed never raises here and the output is empty, but the validation
state is Warning, not Error: the same type id check as in C1 rejects
DecimalData inputs, so DivisionModel.compute never runs and the divide by
zero branch is unreachable for decimal inputs.  This theorem evaluates
the embedded code at the claimed input. -/
theorem claim_C8_divide_by_zero :
    division_after_wiring =
      .ok { number1 := some (.decimalData 5), number2 := some (.decimalData 0),
            result := none, validation_state := .warning,
            validation_message := "Missing or incorrect inputs" } := rfl

/-- Claim C9.  Removing a connection delivers None to the destination
input: delete_connection on the scene where s2 feeds input 1 of the
division node removes the connection and targets the retraction at input
1 of div, and delivering None at input 1 of a division model in any prior
state resets its result to None and its validation state to Warning
without raising. -/
theorem claim_C9_retraction :
    (∀ s : MathOpState, set_in_data division_compute s none 1 =
        .ok { number1 := s.number1, number2 := none, result := none,
              validation_state := .warning,
              validation_message := "Missing or incorrect inputs" })
    ∧ (delete_connection retraction_scene 7).2 = some ("div", 1)
    ∧ ((delete_connection retraction_scene 7).1).connections = [] := by
  refine ⟨?_, rfl, rfl⟩
  intro s
  rcases s with ⟨n1, n2, r, v, m⟩
  cases n1 with
  | none => rfl
  | some d => cases d <;> rfl

/-- Claim C10.  The guard in NodeData.__init_subclass__ never fires for a
subclass that omits data_type: the base class attribute is
NodeDataType(None, None), which is not Python None, so the check passes
silently and the subclass inherits a type whose id is None. -/
theorem claim_C10_subclass_guard :
    init_subclass_data_type_guard none = .ok ()
    ∧ subclass_data_type_attr none = some ⟨none, none⟩ :=
  ⟨rfl, rfl⟩
